import Mathlib

/-
Verification of the dex-swap-api-helper HTTP client wrappers.

The repository contains two Go packages, `kyberswap` and `odos`, each a thin
typed client over a vendor REST API.  The embedding below models:

  - JSON values as an inductive `Json` AST.  Go `float64` fields are modelled
    by an integer scalar: Go's encoding/json prints a float64 in the shortest
    form that parses back to the same float, so JSON round-trips of float64
    fields are exact and the choice of scalar carrier does not affect any
    round-trip or error-path property proved here.
  - Go's `json.Marshal` of a request struct as an encoder into `Json`
    (fields in declaration order, keys from the struct tags).
  - Go's `json.Unmarshal` / `json.Decoder.Decode` of a response as decoders
    `Json -> Option T` following encoding/json struct semantics: the value
    must be an object (or null, which leaves the zero value), missing keys
    keep the zero value, duplicate keys are resolved last-wins, unknown keys
    are ignored, and a type mismatch fails the decode.
  - An HTTP response body as either a well-formed first JSON value followed
    by trailing bytes, or malformed bytes.  `json.NewDecoder(body).Decode`
    reads the first value and ignores the trailing bytes (`streamDecode`);
    `json.Unmarshal` of the fully buffered body additionally requires the
    trailing bytes to be JSON whitespace (`unmarshal`).
  - Each client method's post-transport behaviour as a pure function of the
    `HttpResponse`, returning a `(Option result, Option errorMessage)` pair
    mirroring the Go `(*T, error)` return shape.
-/

namespace DexSwap

/-- JSON value AST; numbers carry an integer scalar (see the header comment). -/
inductive Json where
  | null : Json
  | bool (b : Bool) : Json
  | num (n : Int) : Json
  | str (s : String) : Json
  | arr (xs : List Json) : Json
  | obj (kvs : List (String × Json)) : Json

/-- Last-wins key lookup in a JSON object, matching encoding/json, where a
later duplicate key overwrites the value decoded from an earlier one. -/
def jLookup (kvs : List (String × Json)) (k : String) : Option Json :=
  match kvs with
  | [] => none
  | (k2, v) :: rest =>
    match jLookup rest k with
    | some v2 => some v2
    | none => if k2 = k then some v else none

/-- Decode a JSON value into a Go `string` field: null keeps the zero value. -/
def asString : Json → Option String
  | .str s => some s
  | .null => some ""
  | _ => none

/-- Decode a JSON value into a Go integer or float64 field. -/
def asInt : Json → Option Int
  | .num n => some n
  | .null => some 0
  | _ => none

/-- Decode a JSON value into a Go `bool` field. -/
def asBool : Json → Option Bool
  | .bool b => some b
  | .null => some false
  | _ => none

/-- Decode a JSON value into a Go slice: null decodes as the nil slice. -/
def asArr : Json → Option (List Json)
  | .arr xs => some xs
  | .null => some []
  | _ => none

/-- Decode a JSON value into a Go `*string` field: null is the nil pointer. -/
def asOptString : Json → Option (Option String)
  | .str s => some (some s)
  | .null => some none
  | _ => none

/-- Decode one struct field: a missing key leaves the Go zero value. -/
def getField (kvs : List (String × Json)) (k : String)
    (dec : Json → Option α) (zero : α) : Option α :=
  match jLookup kvs k with
  | none => some zero
  | some j => dec j

/-- Decode every element of a JSON array, failing if any element fails. -/
def decodeList (dec : Json → Option α) : List Json → Option (List α)
  | [] => some []
  | j :: js =>
    (dec j).bind fun x =>
    (decodeList dec js).bind fun xs =>
    some (x :: xs)

/-- Decode a JSON value into a Go slice-of-T field. -/
def asListOf (dec : Json → Option α) (j : Json) : Option (List α) :=
  (asArr j).bind (decodeList dec)

mutual
/-- Serialize a JSON value to its byte representation (string escaping

elided: the repository never inspects individual body bytes, only whole-body
strings carried into error messages). -/
def Json.render : Json → String
  | .null => "null"
  | .bool b => cond b "true" "false"
  | .num n => toString n
  | .str s => "\x22" ++ s ++ "\x22"
  | .arr xs => "[" ++ Json.renderArr xs ++ "]"
  | .obj kvs => "\x7b" ++ Json.renderObj kvs ++ "\x7d"

/-- Comma-separated rendering of array elements. -/
def Json.renderArr : List Json → String
  | [] => ""
  | [j] => Json.render j
  | j :: js => Json.render j ++ "," ++ Json.renderArr js

/-- Comma-separated rendering of object members. -/
def Json.renderObj : List (String × Json) → String
  | [] => ""
  | [(k, j)] => "\x22" ++ k ++ "\x22:" ++ Json.render j
  | (k, j) :: kvs => "\x22" ++ k ++ "\x22:" ++ Json.render j ++ "," ++ Json.renderObj kvs
end

/-- An HTTP response body: either a well-formed first JSON value followed by
trailing bytes, or bytes that do not start with a valid JSON value. -/
inductive Body where
  | val (j : Json) (trailing : String) : Body
  | malformed (raw : String) : Body

/-- Raw bytes of a body, as `io.ReadAll` would return them. -/
def Body.raw : Body → String
  | .val j trailing => j.render ++ trailing
  | .malformed raw => raw

/-- JSON whitespace characters (RFC 8259, as accepted by encoding/json). -/
def jsonWs (c : Char) : Bool :=
  c = ' ' || c = '\t' || c = '\n' || c = '\r'

/-- Semantics of `json.NewDecoder(body).Decode(&v)`: decode the first JSON
value of the stream and ignore any trailing bytes. -/
def streamDecode (dec : Json → Option α) : Body → Option α
  | .val j _ => dec j
  | .malformed _ => none

/-- Semantics of `json.Unmarshal(body, &v)` on the fully buffered body: the
body must be one JSON value followed only by whitespace. -/
def unmarshal (dec : Json → Option α) : Body → Option α
  | .val j trailing => if trailing.data.all jsonWs then dec j else none
  | .malformed _ => none

/-- An HTTP response as seen by the client after a successful transport. -/
structure HttpResponse where
  statusCode : Nat
  body : Body

/-- An outgoing HTTP request as the client hands it to `http.Client.Do`. -/
structure HttpRequest where
  method : String
  url : String
  headers : List (String × String)
  reqBody : Option Json

/-- The substring relation used to state that an error message carries a
piece of text verbatim. -/
def strContains (hay needle : String) : Prop :=
  ∃ a b, hay = a ++ needle ++ b

end DexSwap

namespace DexSwap.Kyberswap

/-- ExtraFee represents the fee information (kyber.go). -/
structure ExtraFee where
  FeeAmount : String
  ChargeFeeBy : String
  IsInBps : Bool
  FeeReceiver : String

/-- OuterPoolExtra (kyber.go); note the Go json tags TokenInIsNative and
TokenOutIsNative keep their capital T. -/
structure OuterPoolExtra where
  BlockNumber : Int
  TokenInIndex : Int
  TokenOutIndex : Int
  Underlying : Bool
  TokenInIsNative : Bool
  TokenOutIsNative : Bool

/-- Route represents a single route segment (kyber.go); the Go field
`Extra interface\x7b\x7d` is modelled as an arbitrary JSON value. -/
structure Route where
  Pool : String
  TokenIn : String
  TokenOut : String
  LimitReturnAmount : String
  SwapAmount : String
  AmountOut : String
  Exchange : String
  PoolLength : Int
  PoolType : String
  PoolExtra : OuterPoolExtra
  Extra : Json

/-- RouteSummary represents the route summary information (kyber.go). -/
structure RouteSummary where
  TokenIn : String
  AmountIn : String
  AmountInUsd : String
  TokenInMarketPriceAvailable : Bool
  TokenOut : String
  AmountOut : String
  AmountOutUsd : String
  TokenOutMarketPriceAvailable : Bool
  Gas : String
  GasPrice : String
  GasUsd : String
  ExtraFee : ExtraFee
  Route : List (List Route)

/-- The anonymous struct of RouteResponse's Data field (kyber.go). -/
structure RouteResponseData where
  RouteSummary : RouteSummary
  RouterAddress : String

/-- RouteResponse represents the API response structure (kyber.go). -/
structure RouteResponse where
  Code : Int
  Message : String
  Data : RouteResponseData
  RequestId : String

/-- BuildRouteRequest (kyber.go). -/
structure BuildRouteRequest where
  RouteSummary : RouteSummary
  Sender : String
  Recipient : String
  Deadline : Int
  SlippageTolerance : Int

/-- OutputChange represents the change in output amount (kyber.go). -/
structure OutputChange where
  Amount : String
  Percent : Int
  Level : Int

/-- The anonymous struct of BuildRouteResponse's Data field (kyber.go). -/
structure BuildRouteData where
  AmountIn : String
  AmountInUsd : String
  AmountOut : String
  AmountOutUsd : String
  Gas : String
  GasUsd : String
  OutputChange : OutputChange
  Data : String
  RouterAddress : String
  TransactionValue : String

/-- BuildRouteResponse represents the response from building a route. -/
structure BuildRouteResponse where
  Code : Int
  Message : String
  Data : BuildRouteData
  RequestId : String

/-- Go zero value of ExtraFee. -/
def ExtraFee.zero : ExtraFee := ⟨"", "", false, ""⟩

/-- Go zero value of OuterPoolExtra. -/
def OuterPoolExtra.zero : OuterPoolExtra := ⟨0, 0, 0, false, false, false⟩

/-- Go zero value of Route (nil interface modelled as JSON null). -/
def Route.zero : Route :=
  ⟨"", "", "", "", "", "", "", 0, "", OuterPoolExtra.zero, Json.null⟩

/-- Go zero value of RouteSummary. -/
def RouteSummary.zero : RouteSummary :=
  ⟨"", "", "", false, "", "", "", false, "", "", "", ExtraFee.zero, []⟩

/-- Go zero value of the RouteResponse Data struct. -/
def RouteResponseData.zero : RouteResponseData := ⟨RouteSummary.zero, ""⟩

/-- Go zero value of RouteResponse. -/
def RouteResponse.zero : RouteResponse := ⟨0, "", RouteResponseData.zero, ""⟩

/-- Go zero value of OutputChange. -/
def OutputChange.zero : OutputChange := ⟨"", 0, 0⟩

/-- Go zero value of the BuildRouteResponse Data struct. -/
def BuildRouteData.zero : BuildRouteData :=
  ⟨"", "", "", "", "", "", OutputChange.zero, "", "", ""⟩

/-- Go zero value of BuildRouteResponse. -/
def BuildRouteResponse.zero : BuildRouteResponse := ⟨0, "", BuildRouteData.zero, ""⟩

/-- json.Marshal of ExtraFee. -/
def encodeExtraFee (x : ExtraFee) : Json :=
  .obj [("feeAmount", .str x.FeeAmount), ("chargeFeeBy", .str x.ChargeFeeBy),
        ("isInBps", .bool x.IsInBps), ("feeReceiver", .str x.FeeReceiver)]

/-- json.Unmarshal into ExtraFee. -/
def decodeExtraFee : Json → Option ExtraFee
  | .obj kvs =>
    (getField kvs "feeAmount" asString "").bind fun a =>
    (getField kvs "chargeFeeBy" asString "").bind fun b =>
    (getField kvs "isInBps" asBool false).bind fun c =>
    (getField kvs "feeReceiver" asString "").bind fun d =>
    some ⟨a, b, c, d⟩
  | .null => some ExtraFee.zero
  | _ => none

/-- json.Marshal of OuterPoolExtra. -/
def encodeOuterPoolExtra (x : OuterPoolExtra) : Json :=
  .obj [("blockNumber", .num x.BlockNumber), ("tokenInIndex", .num x.TokenInIndex),
        ("tokenOutIndex", .num x.TokenOutIndex), ("underlying", .bool x.Underlying),
        ("TokenInIsNative", .bool x.TokenInIsNative),
        ("TokenOutIsNative", .bool x.TokenOutIsNative)]

/-- json.Unmarshal into OuterPoolExtra. -/
def decodeOuterPoolExtra : Json → Option OuterPoolExtra
  | .obj kvs =>
    (getField kvs "blockNumber" asInt 0).bind fun a =>
    (getField kvs "tokenInIndex" asInt 0).bind fun b =>
    (getField kvs "tokenOutIndex" asInt 0).bind fun c =>
    (getField kvs "underlying" asBool false).bind fun d =>
    (getField kvs "TokenInIsNative" asBool false).bind fun e =>
    (getField kvs "TokenOutIsNative" asBool false).bind fun f =>
    some ⟨a, b, c, d, e, f⟩
  | .null => some OuterPoolExtra.zero
  | _ => none

/-- json.Marshal of Route; the interface-typed Extra marshals as the JSON
value it holds. -/
def encodeRoute (x : Route) : Json :=
  .obj [("pool", .str x.Pool), ("tokenIn", .str x.TokenIn),
        ("tokenOut", .str x.TokenOut), ("limitReturnAmount", .str x.LimitReturnAmount),
        ("swapAmount", .str x.SwapAmount), ("amountOut", .str x.AmountOut),
        ("exchange", .str x.Exchange), ("poolLength", .num x.PoolLength),
        ("poolType", .str x.PoolType), ("poolExtra", encodeOuterPoolExtra x.PoolExtra),
        ("extra", x.Extra)]

/-- json.Unmarshal into Route; unmarshalling into the interface-typed Extra
keeps the generic JSON value. -/
def decodeRoute : Json → Option Route
  | .obj kvs =>
    (getField kvs "pool" asString "").bind fun a =>
    (getField kvs "tokenIn" asString "").bind fun b =>
    (getField kvs "tokenOut" asString "").bind fun c =>
    (getField kvs "limitReturnAmount" asString "").bind fun d =>
    (getField kvs "swapAmount" asString "").bind fun e =>
    (getField kvs "amountOut" asString "").bind fun f =>
    (getField kvs "exchange" asString "").bind fun g =>
    (getField kvs "poolLength" asInt 0).bind fun h =>
    (getField kvs "poolType" asString "").bind fun i =>
    (getField kvs "poolExtra" decodeOuterPoolExtra OuterPoolExtra.zero).bind fun j =>
    (getField kvs "extra" (fun v => some v) Json.null).bind fun k =>
    some ⟨a, b, c, d, e, f, g, h, i, j, k⟩
  | .null => some Route.zero
  | _ => none

/-- json.Marshal of RouteSummary. -/
def encodeRouteSummary (x : RouteSummary) : Json :=
  .obj [("tokenIn", .str x.TokenIn), ("amountIn", .str x.AmountIn),
        ("amountInUsd", .str x.AmountInUsd),
        ("tokenInMarketPriceAvailable", .bool x.TokenInMarketPriceAvailable),
        ("tokenOut", .str x.TokenOut), ("amountOut", .str x.AmountOut),
        ("amountOutUsd", .str x.AmountOutUsd),
        ("tokenOutMarketPriceAvailable", .bool x.TokenOutMarketPriceAvailable),
        ("gas", .str x.Gas), ("gasPrice", .str x.GasPrice), ("gasUsd", .str x.GasUsd),
        ("extraFee", encodeExtraFee x.ExtraFee),
        ("route", .arr (x.Route.map (fun row => .arr (row.map encodeRoute))))]

/-- json.Unmarshal into RouteSummary. -/
def decodeRouteSummary : Json → Option RouteSummary
  | .obj kvs =>
    (getField kvs "tokenIn" asString "").bind fun a =>
    (getField kvs "amountIn" asString "").bind fun b =>
    (getField kvs "amountInUsd" asString "").bind fun c =>
    (getField kvs "tokenInMarketPriceAvailable" asBool false).bind fun d =>
    (getField kvs "tokenOut" asString "").bind fun e =>
    (getField kvs "amountOut" asString "").bind fun f =>
    (getField kvs "amountOutUsd" asString "").bind fun g =>
    (getField kvs "tokenOutMarketPriceAvailable" asBool false).bind fun h =>
    (getField kvs "gas" asString "").bind fun i =>
    (getField kvs "gasPrice" asString "").bind fun j =>
    (getField kvs "gasUsd" asString "").bind fun k =>
    (getField kvs "extraFee" decodeExtraFee ExtraFee.zero).bind fun l =>
    (getField kvs "route" (asListOf (asListOf decodeRoute)) []).bind fun m =>
    some ⟨a, b, c, d, e, f, g, h, i, j, k, l, m⟩
  | .null => some RouteSummary.zero
  | _ => none

/-- json.Unmarshal into the RouteResponse Data struct. -/
def decodeRouteResponseData : Json → Option RouteResponseData
  | .obj kvs =>
    (getField kvs "routeSummary" decodeRouteSummary RouteSummary.zero).bind fun a =>
    (getField kvs "routerAddress" asString "").bind fun b =>
    some ⟨a, b⟩
  | .null => some RouteResponseData.zero
  | _ => none

/-- json.Unmarshal into RouteResponse. -/
def decodeRouteResponse : Json → Option RouteResponse
  | .obj kvs =>
    (getField kvs "code" asInt 0).bind fun a =>
    (getField kvs "message" asString "").bind fun b =>
    (getField kvs "data" decodeRouteResponseData RouteResponseData.zero).bind fun c =>
    (getField kvs "requestId" asString "").bind fun d =>
    some ⟨a, b, c, d⟩
  | .null => some RouteResponse.zero
  | _ => none

/-- json.Marshal of BuildRouteRequest. -/
def encodeBuildRouteRequest (x : BuildRouteRequest) : Json :=
  .obj [("routeSummary", encodeRouteSummary x.RouteSummary),
        ("sender", .str x.Sender), ("recipient", .str x.Recipient),
        ("deadline", .num x.Deadline), ("slippageTolerance", .num x.SlippageTolerance)]

/-- json.Unmarshal into BuildRouteRequest. -/
def decodeBuildRouteRequest : Json → Option BuildRouteRequest
  | .obj kvs =>
    (getField kvs "routeSummary" decodeRouteSummary RouteSummary.zero).bind fun a =>
    (getField kvs "sender" asString "").bind fun b =>
    (getField kvs "recipient" asString "").bind fun c =>
    (getField kvs "deadline" asInt 0).bind fun d =>
    (getField kvs "slippageTolerance" asInt 0).bind fun e =>
    some ⟨a, b, c, d, e⟩
  | .null => some ⟨RouteSummary.zero, "", "", 0, 0⟩
  | _ => none

/-- json.Unmarshal into OutputChange. -/
def decodeOutputChange : Json → Option OutputChange
  | .obj kvs =>
    (getField kvs "amount" asString "").bind fun a =>
    (getField kvs "percent" asInt 0).bind fun b =>
    (getField kvs "level" asInt 0).bind fun c =>
    some ⟨a, b, c⟩
  | .null => some OutputChange.zero
  | _ => none

/-- json.Unmarshal into the BuildRouteResponse Data struct. -/
def decodeBuildRouteData : Json → Option BuildRouteData
  | .obj kvs =>
    (getField kvs "amountIn" asString "").bind fun a =>
    (getField kvs "amountInUsd" asString "").bind fun b =>
    (getField kvs "amountOut" asString "").bind fun c =>
    (getField kvs "amountOutUsd" asString "").bind fun d =>
    (getField kvs "gas" asString "").bind fun e =>
    (getField kvs "gasUsd" asString "").bind fun f =>
    (getField kvs "outputChange" decodeOutputChange OutputChange.zero).bind fun g =>
    (getField kvs "data" asString "").bind fun h =>
    (getField kvs "routerAddress" asString "").bind fun i =>
    (getField kvs "transactionValue" asString "").bind fun j =>
    some ⟨a, b, c, d, e, f, g, h, i, j⟩
  | .null => some BuildRouteData.zero
  | _ => none

/-- json.Unmarshal into BuildRouteResponse. -/
def decodeBuildRouteResponse : Json → Option BuildRouteResponse
  | .obj kvs =>
    (getField kvs "code" asInt 0).bind fun a =>
    (getField kvs "message" asString "").bind fun b =>
    (getField kvs "data" decodeBuildRouteData BuildRouteData.zero).bind fun c =>
    (getField kvs "requestId" asString "").bind fun d =>
    some ⟨a, b, c, d⟩
  | .null => some BuildRouteResponse.zero
  | _ => none

end DexSwap.Kyberswap

namespace DexSwap.Odos

/-- PriceResponse (odos.go). -/
structure PriceResponse where
  CurrencyId : String
  Price : Int

/-- InputToken (odos.go). -/
structure InputToken where
  TokenAddress : String
  Amount : String

/-- OutputToken (odos.go). -/
structure OutputToken where
  TokenAddress : String
  Proportion : Int

/-- QuoteRequest (odos.go). -/
structure QuoteRequest where
  ChainId : Int
  InputTokens : List InputToken
  OutputTokens : List OutputToken
  GasPrice : Int
  UserAddr : String
  SlippageLimitPercent : Int
  SourceBlacklist : List String
  SourceWhitelist : List String
  PoolBlacklist : List String
  PathViz : Bool
  ReferralCode : Int
  Compact : Bool
  LikeAsset : Bool
  DisableRFQs : Bool
  Simple : Bool

/-- Token represents token information in path visualization (odos.go). -/
structure Token where
  Name : String
  Symbol : String
  Decimals : Int
  Visible : Bool
  Width : Int

/-- TokenInfo represents detailed token information in path links. -/
structure TokenInfo where
  Name : String
  Symbol : String
  Decimals : Int
  AssetID : String
  AssetType : String
  IsRebasing : Bool
  CgID : String

/-- PathLink represents a link in the path visualization (odos.go). -/
structure PathLink where
  Source : Int
  Target : Int
  SourceExtend : Bool
  TargetExtend : Bool
  Label : String
  Value : Int
  NextValue : Int
  StepValue : Int
  InValue : Int
  OutValue : Int
  EdgeLen : Int
  SourceToken : TokenInfo
  TargetToken : TokenInfo

/-- PathVizData represents the path visualization (named PathViz in odos.go;
renamed here because QuoteRequest has a field of the same name). -/
structure PathVizData where
  Nodes : List Token
  Links : List PathLink

/-- QuoteResponse represents the response from quote endpoint (odos.go). -/
structure QuoteResponse where
  InTokens : List String
  OutTokens : List String
  InAmounts : List String
  OutAmounts : List String
  GasEstimate : Int
  DataGasEstimate : Int
  GweiPerGas : Int
  GasEstimateValue : Int
  InValues : List Int
  OutValues : List Int
  NetOutValue : Int
  PriceImpact : Int
  PercentDiff : Int
  PartnerFeePercent : Int
  PathId : String
  PathViz : PathVizData
  BlockNumber : Int

/-- AssembleRequest represents the request body for assemble endpoint. -/
structure AssembleRequest where
  UserAddr : String
  PathId : String
  Simulate : Bool

/-- Transaction represents the transaction details in the assemble response. -/
structure Transaction where
  Gas : Int
  GasPrice : Int
  Value : String
  To : String
  From : String
  Data : String
  Nonce : Int
  ChainId : Int

/-- Simulation represents the simulation results (odos.go). -/
structure Simulation where
  IsSuccess : Bool
  AmountsOut : List Int
  GasEstimate : Int
  SimulationError : String

/-- The anonymous output-token struct inside AssembleResponse (odos.go). -/
structure AssembleOutputToken where
  TokenAddress : String
  Amount : String

/-- AssembleResponse represents the response from assemble endpoint; the Go
field `Deprecated *string` is modelled as an optional string. -/
structure AssembleResponse where
  Deprecated : Option String
  BlockNumber : Int
  GasEstimate : Int
  GasEstimateValue : Int
  InputTokens : List InputToken
  OutputTokens : List AssembleOutputToken
  NetOutValue : Int
  OutValues : List String
  Transaction : Transaction
  Simulation : Simulation

/-- Go zero value of PriceResponse. -/
def PriceResponse.zero : PriceResponse := ⟨"", 0⟩

/-- Go zero value of InputToken. -/
def InputToken.zero : InputToken := ⟨"", ""⟩

/-- Go zero value of OutputToken. -/
def OutputToken.zero : OutputToken := ⟨"", 0⟩

/-- Go zero value of Token. -/
def Token.zero : Token := ⟨"", "", 0, false, 0⟩

/-- Go zero value of TokenInfo. -/
def TokenInfo.zero : TokenInfo := ⟨"", "", 0, "", "", false, ""⟩

/-- Go zero value of PathLink. -/
def PathLink.zero : PathLink :=
  ⟨0, 0, false, false, "", 0, 0, 0, 0, 0, 0, TokenInfo.zero, TokenInfo.zero⟩

/-- Go zero value of PathVizData. -/
def PathVizData.zero : PathVizData := ⟨[], []⟩

/-- Go zero value of QuoteResponse. -/
def QuoteResponse.zero : QuoteResponse :=
  ⟨[], [], [], [], 0, 0, 0, 0, [], [], 0, 0, 0, 0, "", PathVizData.zero, 0⟩

/-- Go zero value of Transaction. -/
def Transaction.zero : Transaction := ⟨0, 0, "", "", "", "", 0, 0⟩

/-- Go zero value of Simulation. -/
def Simulation.zero : Simulation := ⟨false, [], 0, ""⟩

/-- Go zero value of AssembleOutputToken. -/
def AssembleOutputToken.zero : AssembleOutputToken := ⟨"", ""⟩

/-- Go zero value of AssembleResponse. -/
def AssembleResponse.zero : AssembleResponse :=
  ⟨none, 0, 0, 0, [], [], 0, [], Transaction.zero, Simulation.zero⟩

/-- json.Unmarshal into PriceResponse. -/
def decodePriceResponse : Json → Option PriceResponse
  | .obj kvs =>
    (getField kvs "currencyId" asString "").bind fun a =>
    (getField kvs "price" asInt 0).bind fun b =>
    some ⟨a, b⟩
  | .null => some PriceResponse.zero
  | _ => none

/-- json.Marshal of InputToken. -/
def encodeInputToken (x : InputToken) : Json :=
  .obj [("tokenAddress", .str x.TokenAddress), ("amount", .str x.Amount)]

/-- json.Unmarshal into InputToken. -/
def decodeInputToken : Json → Option InputToken
  | .obj kvs =>
    (getField kvs "tokenAddress" asString "").bind fun a =>
    (getField kvs "amount" asString "").bind fun b =>
    some ⟨a, b⟩
  | .null => some InputToken.zero
  | _ => none

/-- json.Marshal of OutputToken. -/
def encodeOutputToken (x : OutputToken) : Json :=
  .obj [("tokenAddress", .str x.TokenAddress), ("proportion", .num x.Proportion)]

/-- json.Unmarshal into OutputToken. -/
def decodeOutputToken : Json → Option OutputToken
  | .obj kvs =>
    (getField kvs "tokenAddress" asString "").bind fun a =>
    (getField kvs "proportion" asInt 0).bind fun b =>
    some ⟨a, b⟩
  | .null => some OutputToken.zero
  | _ => none

/-- json.Marshal of QuoteRequest. -/
def encodeQuoteRequest (x : QuoteRequest) : Json :=
  .obj [("chainId", .num x.ChainId),
        ("inputTokens", .arr (x.InputTokens.map encodeInputToken)),
        ("outputTokens", .arr (x.OutputTokens.map encodeOutputToken)),
        ("gasPrice", .num x.GasPrice),
        ("userAddr", .str x.UserAddr),
        ("slippageLimitPercent", .num x.SlippageLimitPercent),
        ("sourceBlacklist", .arr (x.SourceBlacklist.map Json.str)),
        ("sourceWhitelist", .arr (x.SourceWhitelist.map Json.str)),
        ("poolBlacklist", .arr (x.PoolBlacklist.map Json.str)),
        ("pathViz", .bool x.PathViz),
        ("referralCode", .num x.ReferralCode),
        ("compact", .bool x.Compact),
        ("likeAsset", .bool x.LikeAsset),
        ("disableRFQs", .bool x.DisableRFQs),
        ("simple", .bool x.Simple)]

/-- json.Unmarshal into QuoteRequest. -/
def decodeQuoteRequest : Json → Option QuoteRequest
  | .obj kvs =>
    (getField kvs "chainId" asInt 0).bind fun a =>
    (getField kvs "inputTokens" (asListOf decodeInputToken) []).bind fun b =>
    (getField kvs "outputTokens" (asListOf decodeOutputToken) []).bind fun c =>
    (getField kvs "gasPrice" asInt 0).bind fun d =>
    (getField kvs "userAddr" asString "").bind fun e =>
    (getField kvs "slippageLimitPercent" asInt 0).bind fun f =>
    (getField kvs "sourceBlacklist" (asListOf asString) []).bind fun g =>
    (getField kvs "sourceWhitelist" (asListOf asString) []).bind fun h =>
    (getField kvs "poolBlacklist" (asListOf asString) []).bind fun i =>
    (getField kvs "pathViz" asBool false).bind fun j =>
    (getField kvs "referralCode" asInt 0).bind fun k =>
    (getField kvs "compact" asBool false).bind fun l =>
    (getField kvs "likeAsset" asBool false).bind fun m =>
    (getField kvs "disableRFQs" asBool false).bind fun n =>
    (getField kvs "simple" asBool false).bind fun o =>
    some ⟨a, b, c, d, e, f, g, h, i, j, k, l, m, n, o⟩
  | .null => some ⟨0, [], [], 0, "", 0, [], [], [], false, 0, false, false, false, false⟩
  | _ => none

/-- json.Unmarshal into Token. -/
def decodeToken : Json → Option Token
  | .obj kvs =>
    (getField kvs "name" asString "").bind fun a =>
    (getField kvs "symbol" asString "").bind fun b =>
    (getField kvs "decimals" asInt 0).bind fun c =>
    (getField kvs "visible" asBool false).bind fun d =>
    (getField kvs "width" asInt 0).bind fun e =>
    some ⟨a, b, c, d, e⟩
  | .null => some Token.zero
  | _ => none

/-- json.Unmarshal into TokenInfo. -/
def decodeTokenInfo : Json → Option TokenInfo
  | .obj kvs =>
    (getField kvs "name" asString "").bind fun a =>
    (getField kvs "symbol" asString "").bind fun b =>
    (getField kvs "decimals" asInt 0).bind fun c =>
    (getField kvs "asset_id" asString "").bind fun d =>
    (getField kvs "asset_type" asString "").bind fun e =>
    (getField kvs "is_rebasing" asBool false).bind fun f =>
    (getField kvs "cgid" asString "").bind fun g =>
    some ⟨a, b, c, d, e, f, g⟩
  | .null => some TokenInfo.zero
  | _ => none

/-- json.Unmarshal into PathLink. -/
def decodePathLink : Json → Option PathLink
  | .obj kvs =>
    (getField kvs "source" asInt 0).bind fun a =>
    (getField kvs "target" asInt 0).bind fun b =>
    (getField kvs "sourceExtend" asBool false).bind fun c =>
    (getField kvs "targetExtend" asBool false).bind fun d =>
    (getField kvs "label" asString "").bind fun e =>
    (getField kvs "value" asInt 0).bind fun f =>
    (getField kvs "nextValue" asInt 0).bind fun g =>
    (getField kvs "stepValue" asInt 0).bind fun h =>
    (getField kvs "in_value" asInt 0).bind fun i =>
    (getField kvs "out_value" asInt 0).bind fun j =>
    (getField kvs "edge_len" asInt 0).bind fun k =>
    (getField kvs "sourceToken" decodeTokenInfo TokenInfo.zero).bind fun l =>
    (getField kvs "targetToken" decodeTokenInfo TokenInfo.zero).bind fun m =>
    some ⟨a, b, c, d, e, f, g, h, i, j, k, l, m⟩
  | .null => some PathLink.zero
  | _ => none

/-- json.Unmarshal into PathVizData. -/
def decodePathVizData : Json → Option PathVizData
  | .obj kvs =>
    (getField kvs "nodes" (asListOf decodeToken) []).bind fun a =>
    (getField kvs "links" (asListOf decodePathLink) []).bind fun b =>
    some ⟨a, b⟩
  | .null => some PathVizData.zero
  | _ => none

/-- json.Unmarshal into QuoteResponse. -/
def decodeQuoteResponse : Json → Option QuoteResponse
  | .obj kvs =>
    (getField kvs "inTokens" (asListOf asString) []).bind fun a =>
    (getField kvs "outTokens" (asListOf asString) []).bind fun b =>
    (getField kvs "inAmounts" (asListOf asString) []).bind fun c =>
    (getField kvs "outAmounts" (asListOf asString) []).bind fun d =>
    (getField kvs "gasEstimate" asInt 0).bind fun e =>
    (getField kvs "dataGasEstimate" asInt 0).bind fun f =>
    (getField kvs "gweiPerGas" asInt 0).bind fun g =>
    (getField kvs "gasEstimateValue" asInt 0).bind fun h =>
    (getField kvs "inValues" (asListOf asInt) []).bind fun i =>
    (getField kvs "outValues" (asListOf asInt) []).bind fun j =>
    (getField kvs "netOutValue" asInt 0).bind fun k =>
    (getField kvs "priceImpact" asInt 0).bind fun l =>
    (getField kvs "percentDiff" asInt 0).bind fun m =>
    (getField kvs "partnerFeePercent" asInt 0).bind fun n =>
    (getField kvs "pathId" asString "").bind fun o =>
    (getField kvs "pathViz" decodePathVizData PathVizData.zero).bind fun p =>
    (getField kvs "blockNumber" asInt 0).bind fun q =>
    some ⟨a, b, c, d, e, f, g, h, i, j, k, l, m, n, o, p, q⟩
  | .null => some QuoteResponse.zero
  | _ => none

/-- json.Marshal of AssembleRequest. -/
def encodeAssembleRequest (x : AssembleRequest) : Json :=
  .obj [("userAddr", .str x.UserAddr), ("pathId", .str x.PathId),
        ("simulate", .bool x.Simulate)]

/-- json.Unmarshal into AssembleRequest. -/
def decodeAssembleRequest : Json → Option AssembleRequest
  | .obj kvs =>
    (getField kvs "userAddr" asString "").bind fun a =>
    (getField kvs "pathId" asString "").bind fun b =>
    (getField kvs "simulate" asBool false).bind fun c =>
    some ⟨a, b, c⟩
  | .null => some ⟨"", "", false⟩
  | _ => none

/-- json.Unmarshal into Transaction. -/
def decodeTransaction : Json → Option Transaction
  | .obj kvs =>
    (getField kvs "gas" asInt 0).bind fun a =>
    (getField kvs "gasPrice" asInt 0).bind fun b =>
    (getField kvs "value" asString "").bind fun c =>
    (getField kvs "to" asString "").bind fun d =>
    (getField kvs "from" asString "").bind fun e =>
    (getField kvs "data" asString "").bind fun f =>
    (getField kvs "nonce" asInt 0).bind fun g =>
    (getField kvs "chainId" asInt 0).bind fun h =>
    some ⟨a, b, c, d, e, f, g, h⟩
  | .null => some Transaction.zero
  | _ => none

/-- json.Unmarshal into Simulation. -/
def decodeSimulation : Json → Option Simulation
  | .obj kvs =>
    (getField kvs "isSuccess" asBool false).bind fun a =>
    (getField kvs "amountsOut" (asListOf asInt) []).bind fun b =>
    (getField kvs "gasEstimate" asInt 0).bind fun c =>
    (getField kvs "simulationError" asString "").bind fun d =>
    some ⟨a, b, c, d⟩
  | .null => some Simulation.zero
  | _ => none

/-- json.Unmarshal into the anonymous output-token struct. -/
def decodeAssembleOutputToken : Json → Option AssembleOutputToken
  | .obj kvs =>
    (getField kvs "tokenAddress" asString "").bind fun a =>
    (getField kvs "amount" asString "").bind fun b =>
    some ⟨a, b⟩
  | .null => some AssembleOutputToken.zero
  | _ => none

/-- json.Unmarshal into AssembleResponse. -/
def decodeAssembleResponse : Json → Option AssembleResponse
  | .obj kvs =>
    (getField kvs "deprecated" asOptString none).bind fun a =>
    (getField kvs "blockNumber" asInt 0).bind fun b =>
    (getField kvs "gasEstimate" asInt 0).bind fun c =>
    (getField kvs "gasEstimateValue" asInt 0).bind fun d =>
    (getField kvs "inputTokens" (asListOf decodeInputToken) []).bind fun e =>
    (getField kvs "outputTokens" (asListOf decodeAssembleOutputToken) []).bind fun f =>
    (getField kvs "netOutValue" asInt 0).bind fun g =>
    (getField kvs "outValues" (asListOf asString) []).bind fun h =>
    (getField kvs "transaction" decodeTransaction Transaction.zero).bind fun i =>
    (getField kvs "simulation" decodeSimulation Simulation.zero).bind fun j =>
    some ⟨a, b, c, d, e, f, g, h, i, j⟩
  | .null => some AssembleResponse.zero
  | _ => none

end DexSwap.Odos

namespace DexSwap

/-- An http.Client value; only its Timeout field (nanoseconds) is ever used
by this repository. -/
structure GoHttpClient where
  Timeout : Int

/-- A heap of http.Client values addressed by pointers, modelling the Go
`*http.Client` field: `WithTimeout` mutates the pointed-to client. -/
def HttpClientHeap : Type := Nat → GoHttpClient

end DexSwap

namespace DexSwap.Kyberswap

/-- The package constant `_baseURL` of kyber.go. -/
def defaultBaseURL : String := "https://aggregator-api.kyberswap.com"

/-- KyberSwapClient (kyber.go): a pointer to an http.Client plus a base URL. -/
structure KyberSwapClient where
  httpClient : Nat
  baseURL : String

/-- NewClient (kyber.go): defaults the base URL and chain, allocates an
http.Client with a 10-second timeout at the given fresh pointer, and bakes
the chain into the base URL via Sprintf "%s/%s". -/
def NewClient (baseURL chain : String) (p : Nat) : KyberSwapClient × GoHttpClient :=
  let b := if baseURL = "" then defaultBaseURL else baseURL
  let ch := if chain = "" then "ethereum" else chain
  ({ httpClient := p, baseURL := b ++ "/" ++ ch }, { Timeout := 10 * 1000000000 })

/-- WithTimeout (kyber.go): assigns `c.httpClient.Timeout = timeout` through
the pointer and returns `c` itself. -/
def WithTimeout (h : HttpClientHeap) (c : KyberSwapClient) (timeout : Int) :
    HttpClientHeap × KyberSwapClient :=
  (fun q => if q = c.httpClient then { Timeout := timeout } else h q, c)

/-- The GET request issued by GetRoutes (kyber.go): query parameters for the
token pair and amount, no headers set beyond Go defaults. -/
def GetRoutesHttpRequest (c : KyberSwapClient) (tokenIn tokenOut amountIn : String) :
    HttpRequest :=
  { method := "GET",
    url := c.baseURL ++ "/api/v1/routes?tokenIn=" ++ tokenIn ++ "&tokenOut="
      ++ tokenOut ++ "&amountIn=" ++ amountIn,
    headers := [],
    reqBody := none }

/-- Response handling of GetRoutes (kyber.go): non-200 statuses become a
status-code error; a 200 body is stream-decoded into RouteResponse. -/
def GetRoutesHandle (resp : HttpResponse) : Option RouteResponse × Option String :=
  if resp.statusCode ≠ 200 then
    (none, some ("unexpected status code: " ++ toString resp.statusCode))
  else
    match streamDecode decodeRouteResponse resp.body with
    | some r => (some r, none)
    | none => (none, some "error decoding response")

/-- The request record BuildRoute (kyber.go) constructs: the caller's route
summary, sender and recipient, a deadline of `time.Now().Unix() + 20*3600`,
and a slippage tolerance of 10. -/
def BuildRouteRequestOf (now : Int) (routeSummary : RouteSummary)
    (sender recipient : String) : BuildRouteRequest :=
  { RouteSummary := routeSummary,
    Sender := sender,
    Recipient := recipient,
    Deadline := now + 20 * 3600,
    SlippageTolerance := 10 }

/-- The POST request issued by BuildRoute (kyber.go): the marshalled request
record, with only the Content-Type header set. -/
def BuildRouteHttpRequest (c : KyberSwapClient) (now : Int)
    (routeSummary : RouteSummary) (sender recipient : String) : HttpRequest :=
  { method := "POST",
    url := c.baseURL ++ "/api/v1/route/build",
    headers := [("Content-Type", "application/json")],
    reqBody := some (encodeBuildRouteRequest
      (BuildRouteRequestOf now routeSummary sender recipient)) }

/-- Response handling of BuildRoute (kyber.go): non-200 statuses buffer the
body and fail with a status-and-body error; a 200 body is stream-decoded. -/
def BuildRouteHandle (resp : HttpResponse) : Option BuildRouteResponse × Option String :=
  if resp.statusCode ≠ 200 then
    (none, some ("unexpected status code: " ++ toString resp.statusCode ++ ": " ++ resp.body.raw))
  else
    match streamDecode decodeBuildRouteResponse resp.body with
    | some r => (some r, none)
    | none => (none, some "error decoding response")

end DexSwap.Kyberswap

namespace DexSwap.Odos

/-- The package constant `_baseURL` of odos.go. -/
def defaultBaseURL : String := "https://api.odos.xyz"

/-- OdosClient (odos.go): a pointer to an http.Client plus a base URL. -/
structure OdosClient where
  httpClient : Nat
  baseURL : String

/-- NewClient (odos.go): defaults the base URL and allocates an http.Client
with a 10-second timeout at the given fresh pointer. -/
def NewClient (baseURL : String) (p : Nat) : OdosClient × GoHttpClient :=
  let b := if baseURL = "" then defaultBaseURL else baseURL
  ({ httpClient := p, baseURL := b }, { Timeout := 10 * 1000000000 })

/-- The four headers Quote and Assemble (odos.go) set on their requests. -/
def odosHeaders : List (String × String) :=
  [("Content-Type", "application/json"), ("Accept", "*/*"),
   ("Origin", "https://app.odos.xyz"), ("Referer", "https://app.odos.xyz/")]

/-- The GET request issued by GetTokenPrice (odos.go): a path-parameterized
URL sent through `httpClient.Get`, which sets no headers. -/
def GetTokenPriceHttpRequest (c : OdosClient) (chainID tokenAddr : String) :
    HttpRequest :=
  { method := "GET",
    url := c.baseURL ++ "/pricing/token/" ++ chainID ++ "/" ++ tokenAddr,
    headers := [],
    reqBody := none }

/-- Response handling of GetTokenPrice (odos.go): the body is stream-decoded
into PriceResponse with no status-code check. -/
def GetTokenPriceHandle (resp : HttpResponse) : Option PriceResponse × Option String :=
  match streamDecode decodePriceResponse resp.body with
  | some r => (some r, none)
  | none => (none, some "failed to decode response")

/-- The POST request issued by Quote (odos.go): the marshalled QuoteRequest
with the four Odos headers. -/
def QuoteHttpRequest (c : OdosClient) (req : QuoteRequest) : HttpRequest :=
  { method := "POST",
    url := c.baseURL ++ "/sor/quote/v2",
    headers := odosHeaders,
    reqBody := some (encodeQuoteRequest req) }

/-- Response handling of Quote (odos.go): the body is stream-decoded into
QuoteResponse with no status-code check. -/
def QuoteHandle (resp : HttpResponse) : Option QuoteResponse × Option String :=
  match streamDecode decodeQuoteResponse resp.body with
  | some r => (some r, none)
  | none => (none, some "failed to decode response")

/-- The request record Assemble (odos.go) builds from its parameters. -/
def AssembleRequestOf (userAddr pathId : String) (isSimulate : Bool) : AssembleRequest :=
  { UserAddr := userAddr, PathId := pathId, Simulate := isSimulate }

/-- The POST request issued by Assemble (odos.go): the marshalled
AssembleRequest with the four Odos headers. -/
def AssembleHttpRequest (c : OdosClient) (userAddr pathId : String)
    (isSimulate : Bool) : HttpRequest :=
  { method := "POST",
    url := c.baseURL ++ "/sor/assemble",
    headers := odosHeaders,
    reqBody := some (encodeAssembleRequest (AssembleRequestOf userAddr pathId isSimulate)) }

/-- Response handling of Assemble (odos.go): the body is fully buffered;
non-200 statuses fail with an error carrying the status code and the raw
body; a 200 body is unmarshalled (whole-body) into AssembleResponse. -/
def AssembleHandle (resp : HttpResponse) : Option AssembleResponse × Option String :=
  if resp.statusCode ≠ 200 then
    (none, some ("unexpected status code: " ++ toString resp.statusCode
      ++ ", response: " ++ resp.body.raw))
  else
    match unmarshal decodeAssembleResponse resp.body with
    | some r => (some r, none)
    | none => (none, some "failed to decode response")

end DexSwap.Odos

namespace DexSwap

/-- Decoding an encoded list element-by-element recovers the list. -/
theorem decodeList_encode (dec : Json → Option α) (enc : α → Json) (xs : List α)
    (h : ∀ x ∈ xs, dec (enc x) = some x) :
    decodeList dec (xs.map enc) = some xs := by
  induction xs with
  | nil => rfl
  | cons x xs ih =>
    simp only [List.map_cons, decodeList, h x (List.mem_cons_self x xs),
      ih (fun y hy => h y (List.mem_cons_of_mem x hy)), Option.some_bind]

/-- A middle factor of a concatenation is a verbatim substring. -/
theorem strContains_mid (a b c : String) : strContains (a ++ b ++ c) b :=
  ⟨a, c, rfl⟩

/-- The right factor of a concatenation is a verbatim substring. -/
theorem strContains_right (a b : String) : strContains (a ++ b) b :=
  ⟨a, "", by simp⟩

end DexSwap

namespace DexSwap.Odos

/-- QuoteRequest survives a marshal/unmarshal round trip. -/
theorem encodeQuoteRequest_roundtrip (x : QuoteRequest) :
    decodeQuoteRequest (encodeQuoteRequest x) = some x := by
  have hin := decodeList_encode decodeInputToken encodeInputToken x.InputTokens
    (fun y _ => rfl)
  have hout := decodeList_encode decodeOutputToken encodeOutputToken x.OutputTokens
    (fun y _ => rfl)
  have hs1 := decodeList_encode asString Json.str x.SourceBlacklist (fun y _ => rfl)
  have hs2 := decodeList_encode asString Json.str x.SourceWhitelist (fun y _ => rfl)
  have hs3 := decodeList_encode asString Json.str x.PoolBlacklist (fun y _ => rfl)
  simp [decodeQuoteRequest, encodeQuoteRequest, getField, jLookup, asListOf, asArr,
    asInt, asString, asBool, hin, hout, hs1, hs2, hs3]

end DexSwap.Odos

namespace DexSwap.Kyberswap

/-- RouteSummary survives a marshal/unmarshal round trip. -/
theorem encodeRouteSummary_roundtrip (x : RouteSummary) :
    decodeRouteSummary (encodeRouteSummary x) = some x := by
  have hfee : decodeExtraFee (encodeExtraFee x.ExtraFee) = some x.ExtraFee := rfl
  have hroute := decodeList_encode (asListOf decodeRoute)
    (fun row => Json.arr (row.map encodeRoute)) x.Route
    (fun row _ => by
      simp [asListOf, asArr, decodeList_encode decodeRoute encodeRoute row (fun r _ => rfl)])
  simp [decodeRouteSummary, encodeRouteSummary, getField, jLookup, asListOf, asArr,
    asInt, asString, asBool, hfee, hroute]

/-- BuildRouteRequest survives a marshal/unmarshal round trip. -/
theorem encodeBuildRouteRequest_roundtrip (x : BuildRouteRequest) :
    decodeBuildRouteRequest (encodeBuildRouteRequest x) = some x := by
  simp [decodeBuildRouteRequest, encodeBuildRouteRequest, getField, jLookup,
    asInt, asString, encodeRouteSummary_roundtrip x.RouteSummary]

/-- C1: every BuildRoute call constructs, marshals and POSTs a request record
whose Deadline is the call-time Unix seconds plus the fixed offset 20*3600
and whose SlippageTolerance is the constant 10, whatever the route summary,
sender and recipient arguments are. -/
theorem buildRoute_deadline_and_slippage (now : Int) (rs : RouteSummary)
    (sender recipient : String) :
    (BuildRouteRequestOf now rs sender recipient).Deadline = now + 20 * 3600 ∧
    (BuildRouteRequestOf now rs sender recipient).SlippageTolerance = 10 ∧
    encodeBuildRouteRequest (BuildRouteRequestOf now rs sender recipient) =
      Json.obj [("routeSummary", encodeRouteSummary rs), ("sender", .str sender),
        ("recipient", .str recipient), ("deadline", .num (now + 20 * 3600)),
        ("slippageTolerance", .num 10)] :=
  ⟨rfl, rfl, rfl⟩

/-- C5: GetRoutes succeeds exactly when the status is 200 and the body
decodes; any non-200 status yields a nil result and an error message carrying
that status code, and on 200 the result is exactly the decoded body. -/
theorem getRoutes_status_behavior (resp : HttpResponse) :
    ((GetRoutesHandle resp).1.isSome = true ↔
      (resp.statusCode = 200 ∧ (streamDecode decodeRouteResponse resp.body).isSome = true)) ∧
    (resp.statusCode ≠ 200 →
      (GetRoutesHandle resp).1 = none ∧
      ∃ msg, (GetRoutesHandle resp).2 = some msg ∧
        strContains msg (toString resp.statusCode)) ∧
    (resp.statusCode = 200 →
      ∀ r, ((GetRoutesHandle resp).1 = some r ↔
        streamDecode decodeRouteResponse resp.body = some r)) := by
  by_cases h : resp.statusCode = 200
  · cases hd : streamDecode decodeRouteResponse resp.body with
    | none =>
      exact ⟨by simp [GetRoutesHandle, h, hd], fun hne => absurd h hne,
        fun _ r => by simp [GetRoutesHandle, h, hd]⟩
    | some r =>
      exact ⟨by simp [GetRoutesHandle, h, hd], fun hne => absurd h hne,
        fun _ r2 => by simp [GetRoutesHandle, h, hd]⟩
  · exact ⟨by simp [GetRoutesHandle, h],
      fun _ => ⟨by simp [GetRoutesHandle, h],
        "unexpected status code: " ++ toString resp.statusCode,
        by simp [GetRoutesHandle, h],
        strContains_right "unexpected status code: " (toString resp.statusCode)⟩,
      fun hc => absurd hc h⟩

/-- Witness for the C5 theorem at status 404 with an undecodable body, and at
status 200 with the empty-object body. -/
theorem getRoutes_status_behavior_witness :
    ((404 : Nat) ≠ 200 ∧
      ((GetRoutesHandle { statusCode := 404, body := .malformed "nope" }).1 = none ∧
       ∃ msg, (GetRoutesHandle { statusCode := 404, body := .malformed "nope" }).2 = some msg ∧
         strContains msg (toString (404 : Nat)))) ∧
    ((GetRoutesHandle { statusCode := 200, body := .val (.obj []) "" }).1 =
        some RouteResponse.zero ↔
      streamDecode decodeRouteResponse (.val (.obj []) "") = some RouteResponse.zero) :=
  ⟨⟨by decide,
    (getRoutes_status_behavior { statusCode := 404, body := .malformed "nope" }).2.1
      (by decide)⟩,
   (getRoutes_status_behavior { statusCode := 200, body := .val (.obj []) "" }).2.2
     rfl RouteResponse.zero⟩

/-- C9: WithTimeout writes the given duration through the client's
http.Client pointer, returns the very same client record (so chaining sees
the same base URL), and changes no other heap cell. -/
theorem withTimeout_frame (h : HttpClientHeap) (c : KyberSwapClient) (d : Int) :
    (WithTimeout h c d).2 = c ∧
    ((WithTimeout h c d).1 c.httpClient).Timeout = d ∧
    (WithTimeout h c d).2.baseURL = c.baseURL ∧
    ∀ q : Nat, q ≠ c.httpClient → (WithTimeout h c d).1 q = h q :=
  ⟨rfl, by simp [WithTimeout], rfl, fun q hq => by simp [WithTimeout, hq]⟩

/-- Witness for the C9 theorem on a concrete heap, client and duration. -/
theorem withTimeout_frame_witness :
    (3 : Nat) ≠ 5 ∧
    ((WithTimeout (fun _ => { Timeout := 0 }) { httpClient := 5, baseURL := "u" } 7).2 =
      { httpClient := 5, baseURL := "u" } ∧
     ((WithTimeout (fun _ => { Timeout := 0 }) { httpClient := 5, baseURL := "u" } 7).1 5).Timeout = 7 ∧
     (WithTimeout (fun _ => { Timeout := 0 }) { httpClient := 5, baseURL := "u" } 7).1 3 =
       (fun _ => ({ Timeout := 0 } : GoHttpClient)) 3) :=
  ⟨by decide,
   (withTimeout_frame (fun _ => { Timeout := 0 }) { httpClient := 5, baseURL := "u" } 7).1,
   (withTimeout_frame (fun _ => { Timeout := 0 }) { httpClient := 5, baseURL := "u" } 7).2.1,
   (withTimeout_frame (fun _ => { Timeout := 0 }) { httpClient := 5, baseURL := "u" } 7).2.2.2
     3 (by decide)⟩

end DexSwap.Kyberswap

namespace DexSwap.Odos

/-- C2: Assemble on a non-200 vendor response returns a nil response and an
error whose message carries the status code and the raw response body
verbatim; no decoded response is produced. -/
theorem assemble_non200_error (resp : HttpResponse) (h : resp.statusCode ≠ 200) :
    (AssembleHandle resp).1 = none ∧
    ∃ msg, (AssembleHandle resp).2 = some msg ∧
      strContains msg (toString resp.statusCode) ∧
      strContains msg resp.body.raw := by
  refine ⟨by simp [AssembleHandle, h],
    "unexpected status code: " ++ toString resp.statusCode ++ ", response: " ++ resp.body.raw,
    by simp [AssembleHandle, h], ?_, ?_⟩
  · exact ⟨"unexpected status code: ", ", response: " ++ resp.body.raw,
      by simp [String.append_assoc]⟩
  · exact strContains_right
      ("unexpected status code: " ++ toString resp.statusCode ++ ", response: ")
      resp.body.raw

/-- Witness for the C2 theorem at status 500 with body bytes "oops". -/
theorem assemble_non200_error_witness :
    (500 : Nat) ≠ 200 ∧
    ((AssembleHandle { statusCode := 500, body := .malformed "oops" }).1 = none ∧
     ∃ msg, (AssembleHandle { statusCode := 500, body := .malformed "oops" }).2 = some msg ∧
       strContains msg (toString (500 : Nat)) ∧
       strContains msg (Body.malformed "oops").raw) :=
  ⟨by decide,
   assemble_non200_error { statusCode := 500, body := .malformed "oops" } (by decide)⟩

/-- C3 counterexample: a 200 response with the body consisting of one empty
JSON object decodes to the zero PriceResponse, so GetTokenPrice returns a
successful, error-free result whose currency identifier is empty. -/
theorem getTokenPrice_empty_currency_success :
    GetTokenPriceHandle { statusCode := 200, body := .val (.obj []) "" } =
      (some { CurrencyId := "", Price := 0 }, none) := rfl

/-- C3 (amended): for every vendor response, GetTokenPrice returns either a
non-nil price record with a nil error or a nil record with a non-nil error,
never both nil; the currency identifier of a successful result is whatever
the body decodes to and may be empty. -/
theorem getTokenPrice_result_or_error (resp : HttpResponse) :
    ((GetTokenPriceHandle resp).1.isSome = true ∧ (GetTokenPriceHandle resp).2 = none) ∨
    ((GetTokenPriceHandle resp).1 = none ∧ (GetTokenPriceHandle resp).2.isSome = true) := by
  cases h : streamDecode decodePriceResponse resp.body with
  | none => exact Or.inr (by simp [GetTokenPriceHandle, h])
  | some r => exact Or.inl (by simp [GetTokenPriceHandle, h])

/-- C4: GetTokenPrice and Quote never inspect the HTTP status code — any two
statuses give identical outcomes on the same body — and they succeed exactly
when the body stream-decodes into the expected schema, unlike Assemble and
the two KyberSwap methods, which reject any non-200 status. -/
theorem odos_no_status_check (s1 s2 : Nat) (b : Body) :
    GetTokenPriceHandle { statusCode := s1, body := b } =
      GetTokenPriceHandle { statusCode := s2, body := b } ∧
    QuoteHandle { statusCode := s1, body := b } =
      QuoteHandle { statusCode := s2, body := b } ∧
    ((GetTokenPriceHandle { statusCode := s1, body := b }).1.isSome =
      (streamDecode decodePriceResponse b).isSome) ∧
    ((GetTokenPriceHandle { statusCode := s1, body := b }).2 = none ↔
      (streamDecode decodePriceResponse b).isSome = true) ∧
    ((QuoteHandle { statusCode := s1, body := b }).1.isSome =
      (streamDecode decodeQuoteResponse b).isSome) ∧
    ((QuoteHandle { statusCode := s1, body := b }).2 = none ↔
      (streamDecode decodeQuoteResponse b).isSome = true) ∧
    (Kyberswap.GetRoutesHandle { statusCode := 500, body := b }).1 = none ∧
    (Kyberswap.BuildRouteHandle { statusCode := 500, body := b }).1 = none ∧
    (AssembleHandle { statusCode := 500, body := b }).1 = none := by
  cases hp : streamDecode decodePriceResponse b <;>
    cases hq : streamDecode decodeQuoteResponse b <;>
      simp [GetTokenPriceHandle, QuoteHandle, AssembleHandle,
        Kyberswap.GetRoutesHandle, Kyberswap.BuildRouteHandle, hp, hq]

/-- C8 counterexample: the GET request GetTokenPrice issues through
http.Client.Get carries no headers at all, in particular not
Content-Type: application/json. -/
theorem getTokenPrice_request_has_no_headers :
    (GetTokenPriceHttpRequest (NewClient "" 0).1 "1" "0xabc").headers = [] ∧
    ((GetTokenPriceHttpRequest (NewClient "" 0).1 "1" "0xabc").headers.contains
      ("Content-Type", "application/json")) = false :=
  ⟨rfl, rfl⟩

/-- C8 (amended): Quote and Assemble set exactly the four headers
Content-Type: application/json, Accept: */*, Origin: https://app.odos.xyz
and Referer: https://app.odos.xyz/ on the requests they issue, while the
GetTokenPrice request carries no headers. -/
theorem odos_request_headers (c : OdosClient) (req : QuoteRequest)
    (ua pid cid ta : String) (sim : Bool) :
    (QuoteHttpRequest c req).headers =
      [("Content-Type", "application/json"), ("Accept", "*/*"),
       ("Origin", "https://app.odos.xyz"), ("Referer", "https://app.odos.xyz/")] ∧
    (AssembleHttpRequest c ua pid sim).headers =
      [("Content-Type", "application/json"), ("Accept", "*/*"),
       ("Origin", "https://app.odos.xyz"), ("Referer", "https://app.odos.xyz/")] ∧
    (GetTokenPriceHttpRequest c cid ta).headers = [] :=
  ⟨rfl, rfl, rfl⟩

/-- C10 counterexample: with trailing bytes that are only whitespace after
the JSON value, json.Unmarshal accepts the buffered body, so Assemble
succeeds instead of returning a decode error. -/
theorem assemble_trailing_whitespace_succeeds :
    AssembleHandle { statusCode := 200, body := .val (.obj []) " " } =
      (some AssembleResponse.zero, none) := rfl

end DexSwap.Odos

namespace DexSwap

/-- C6: marshalling any QuoteRequest, AssembleRequest or BuildRouteRequest to
JSON and unmarshalling the result reproduces the original record in every
field. -/
theorem request_records_json_roundtrip (q : Odos.QuoteRequest)
    (a : Odos.AssembleRequest) (b : Kyberswap.BuildRouteRequest) :
    Odos.decodeQuoteRequest (Odos.encodeQuoteRequest q) = some q ∧
    Odos.decodeAssembleRequest (Odos.encodeAssembleRequest a) = some a ∧
    Kyberswap.decodeBuildRouteRequest (Kyberswap.encodeBuildRouteRequest b) = some b :=
  ⟨Odos.encodeQuoteRequest_roundtrip q, rfl,
   Kyberswap.encodeBuildRouteRequest_roundtrip b⟩

/-- C7: odos.NewClient with an empty base URL defaults to https://api.odos.xyz;
kyberswap.NewClient with empty base URL and chain defaults to
https://aggregator-api.kyberswap.com/ethereum, and in general its base URL is
the (defaulted) base URL, a slash, and the (defaulted) chain. -/
theorem newClient_base_urls (b ch : String) (p : Nat) :
    (Odos.NewClient "" p).1.baseURL = "https://api.odos.xyz" ∧
    (Kyberswap.NewClient "" "" p).1.baseURL =
      "https://aggregator-api.kyberswap.com/ethereum" ∧
    (Kyberswap.NewClient b ch p).1.baseURL =
      ((if b = "" then Kyberswap.defaultBaseURL else b) ++ "/"
        ++ (if ch = "" then "ethereum" else ch)) ∧
    (Odos.NewClient b p).1.baseURL = (if b = "" then Odos.defaultBaseURL else b) :=
  ⟨rfl, rfl, rfl, rfl⟩

/-- C10 (amended): for a 200 response whose body is one valid JSON value of
the expected schema followed by trailing bytes at least one of which is not
JSON whitespace, Assemble (whole-body unmarshal) fails with a decode error
while GetTokenPrice, Quote, GetRoutes and BuildRoute (stream decode) succeed,
ignoring the trailing bytes. -/
theorem decode_strictness_difference (t : String) (hws : t.data.all jsonWs = false)
    (ja jp jq jr jb : Json)
    (ha : (Odos.decodeAssembleResponse ja).isSome = true)
    (hp : (Odos.decodePriceResponse jp).isSome = true)
    (hq : (Odos.decodeQuoteResponse jq).isSome = true)
    (hr : (Kyberswap.decodeRouteResponse jr).isSome = true)
    (hb : (Kyberswap.decodeBuildRouteResponse jb).isSome = true) :
    (Odos.AssembleHandle { statusCode := 200, body := .val ja t }).1 = none ∧
    (Odos.AssembleHandle { statusCode := 200, body := .val ja t }).2.isSome = true ∧
    (Odos.GetTokenPriceHandle { statusCode := 200, body := .val jp t }).1.isSome = true ∧
    (Odos.GetTokenPriceHandle { statusCode := 200, body := .val jp t }).2 = none ∧
    (Odos.QuoteHandle { statusCode := 200, body := .val jq t }).1.isSome = true ∧
    (Odos.QuoteHandle { statusCode := 200, body := .val jq t }).2 = none ∧
    (Kyberswap.GetRoutesHandle { statusCode := 200, body := .val jr t }).1.isSome = true ∧
    (Kyberswap.GetRoutesHandle { statusCode := 200, body := .val jr t }).2 = none ∧
    (Kyberswap.BuildRouteHandle { statusCode := 200, body := .val jb t }).1.isSome = true ∧
    (Kyberswap.BuildRouteHandle { statusCode := 200, body := .val jb t }).2 = none := by
  obtain ⟨pa, hpa⟩ := Option.isSome_iff_exists.mp hp
  obtain ⟨qa, hqa⟩ := Option.isSome_iff_exists.mp hq
  obtain ⟨ra, hra⟩ := Option.isSome_iff_exists.mp hr
  obtain ⟨ba, hba⟩ := Option.isSome_iff_exists.mp hb
  refine ⟨?_, ?_, ?_, ?_, ?_, ?_, ?_, ?_, ?_, ?_⟩ <;>
    simp [Odos.AssembleHandle, Odos.GetTokenPriceHandle, Odos.QuoteHandle,
      Kyberswap.GetRoutesHandle, Kyberswap.BuildRouteHandle, streamDecode, unmarshal,
      hws, hpa, hqa, hra, hba]

/-- Witness for the C10 theorem: trailing bytes "x" after the empty JSON
object, which every schema decodes to its zero record. -/
theorem decode_strictness_difference_witness :
    ("x".data.all jsonWs = false) ∧
    ((Odos.decodeAssembleResponse (Json.obj [])).isSome = true) ∧
    ((Odos.AssembleHandle { statusCode := 200, body := .val (.obj []) "x" }).1 = none ∧
     (Odos.AssembleHandle { statusCode := 200, body := .val (.obj []) "x" }).2.isSome = true ∧
     (Odos.GetTokenPriceHandle { statusCode := 200, body := .val (.obj []) "x" }).1.isSome = true ∧
     (Odos.GetTokenPriceHandle { statusCode := 200, body := .val (.obj []) "x" }).2 = none ∧
     (Odos.QuoteHandle { statusCode := 200, body := .val (.obj []) "x" }).1.isSome = true ∧
     (Odos.QuoteHandle { statusCode := 200, body := .val (.obj []) "x" }).2 = none ∧
     (Kyberswap.GetRoutesHandle { statusCode := 200, body := .val (.obj []) "x" }).1.isSome = true ∧
     (Kyberswap.GetRoutesHandle { statusCode := 200, body := .val (.obj []) "x" }).2 = none ∧
     (Kyberswap.BuildRouteHandle { statusCode := 200, body := .val (.obj []) "x" }).1.isSome = true ∧
     (Kyberswap.BuildRouteHandle { statusCode := 200, body := .val (.obj []) "x" }).2 = none) :=
  ⟨rfl, rfl,
   decode_strictness_difference "x" rfl (Json.obj []) (Json.obj []) (Json.obj [])
     (Json.obj []) (Json.obj []) rfl rfl rfl rfl rfl⟩

end DexSwap
